import Mathlib

/-!
Verification of the KisanSaathi crop-recommendation core:
a shallow embedding of predict.py (predict_top3) and
predict_wrapper.py (the CLI adapter predict and the module-level
model load) with proofs about their contracts.
Python floats are modelled as exact rationals plus the three
non-finite values; the stable Timsort used by sorted(..., reverse=True)
is modelled by List.mergeSort with the descending comparison.
-/

/-- A Python float value: a finite number (modelled exactly as a rational),
or one of the non-finite values nan, positive infinity, negative infinity. -/
inductive PyVal where
  | num : ℚ → PyVal
  | nan : PyVal
  | inf : PyVal
  | ninf : PyVal
deriving DecidableEq, Repr

/-- Value of a list of decimal digit characters read as a natural number. -/
def digitsToNat (cs : List Char) : ℕ :=
  cs.foldl (fun n c => 10 * n + (c.toNat - 48)) 0

/-- Consume an optional leading sign; returns whether the sign was minus
together with the remaining characters. -/
def splitSign : List Char → Bool × List Char
  | '+' :: cs => (false, cs)
  | '-' :: cs => (true, cs)
  | cs => (false, cs)

/-- Parse an unsigned decimal mantissa, digits with an optional decimal
point, requiring at least one digit; returns its value and the remaining
characters. -/
def parseUnsigned (cs : List Char) : Option (ℚ × List Char) :=
  let intPart := cs.takeWhile Char.isDigit
  let rest := cs.dropWhile Char.isDigit
  match rest with
  | '.' :: rest2 =>
      let fracPart := rest2.takeWhile Char.isDigit
      let rest3 := rest2.dropWhile Char.isDigit
      if intPart.isEmpty && fracPart.isEmpty then none
      else some ((digitsToNat intPart : ℚ)
        + (digitsToNat fracPart : ℚ) / (10 ^ fracPart.length), rest3)
  | _ =>
      if intPart.isEmpty then none
      else some ((digitsToNat intPart : ℚ), rest)

/-- Apply an optional exponent suffix to a parsed mantissa; the whole
remainder must be consumed. -/
def applyExponent (q : ℚ) (cs : List Char) : Option ℚ :=
  match cs with
  | [] => some q
  | c :: rest =>
      if c = 'e' ∨ c = 'E' then
        let sr := splitSign rest
        let ds := sr.2.takeWhile Char.isDigit
        let rest3 := sr.2.dropWhile Char.isDigit
        if ds.isEmpty || !rest3.isEmpty then none
        else some (if sr.1 then q / 10 ^ digitsToNat ds else q * 10 ^ digitsToNat ds)
      else none

/-- The Python builtin float applied to a string: strips surrounding
whitespace, accepts an optional sign, the case-insensitive words nan,
inf and infinity, and decimal numerals with optional fraction and
exponent; returns none when the string is not numeric. -/
def pyFloat (s : String) : Option PyVal :=
  let cs := ((s.toList.dropWhile Char.isWhitespace).reverse.dropWhile
    Char.isWhitespace).reverse
  let sb := splitSign cs
  let lb := sb.2.map Char.toLower
  if lb = "nan".toList then some PyVal.nan
  else if lb = "inf".toList ∨ lb = "infinity".toList then
    some (if sb.1 then PyVal.ninf else PyVal.inf)
  else
    match parseUnsigned sb.2 with
    | none => none
    | some qr =>
        match applyExponent qr.1 qr.2 with
        | none => none
        | some q2 => some (PyVal.num (if sb.1 then -q2 else q2))

/-- Round a rational to the nearest integer, ties to the even integer:
the rounding mode of the Python builtin round. -/
def rndHalfEven (q : ℚ) : ℤ :=
  if q - ⌊q⌋ < 1/2 then ⌊q⌋
  else if 1/2 < q - ⌊q⌋ then ⌊q⌋ + 1
  else if 2 ∣ ⌊q⌋ then ⌊q⌋ else ⌊q⌋ + 1

/-- The Python expression round(x, 2): round to two decimal places,
ties to even. -/
def round2 (x : ℚ) : ℚ :=
  (rndHalfEven (x * 100) : ℚ) / 100

/-- The percentage presented for a probability p, as computed by both
entry points: round(p * 100, 2). -/
def toPct (p : ℚ) : ℚ := round2 (p * 100)

/-- The fixed feature-column order shared by predict.py and
predict_wrapper.py. -/
def FEATURES : List String :=
  ["N", "P", "K", "temperature", "humidity", "ph", "rainfall"]

/-- The loaded model as both entry points use it: its ordered class
vocabulary (classes underscore) and its predict-proba row for a given
7-value input. -/
structure Classifier where
  classes : List String
  predict_proba : List PyVal → List ℚ

/-- The list comprehension zip(classes, probs) in both entry points:
each class paired with its probability, in the internal class order. -/
def results (m : Classifier) (input : List PyVal) : List (String × ℚ) :=
  m.classes.zip (m.predict_proba input)

/-- The descending comparison of sorted(results, key probability,
reverse True): a precedes b when the probability of b is at most that
of a; ties are left to stability. -/
def probDesc (a b : String × ℚ) : Bool := decide (b.2 ≤ a.2)

/-- sorted(results, key lambda probability, reverse True): a stable
sort, descending by probability. -/
def sortedResults (m : Classifier) (input : List PyVal) : List (String × ℚ) :=
  (results m input).mergeSort probDesc

/-- The top-3 selection both entry points print: first three entries of
the sorted pairing, probabilities scaled to rounded percentages. -/
def top3 (m : Classifier) (input : List PyVal) : List (String × ℚ) :=
  ((sortedResults m input).take 3).map (fun cp => (cp.1, round2 (cp.2 * 100)))

/-- predict_top3 of predict.py: builds a one-row DataFrame over the 7
FEATURES columns, which fails unless the input has exactly 7 values,
then returns the rounded top-3 list; none models the pandas error. -/
def predict_top3 (m : Classifier) (user_input : List PyVal) :
    Option (List (String × ℚ)) :=
  if user_input.length = FEATURES.length then some (top3 m user_input)
  else none

/-- The JSON values the CLI adapter prints with json.dumps. -/
inductive Json where
  | str : String → Json
  | num : ℚ → Json
  | bool : Bool → Json
  | arr : List Json → Json
  | obj : List (String × Json) → Json

/-- The single quote character, used by the Python float error text. -/
def quoteChar : Char := Char.ofNat 39

/-- The ValueError text of the Python builtin float on a non-numeric
string: could not convert string to float, then the string quoted. -/
def floatErrMsg (s : String) : String :=
  "could not convert string to float: "
    ++ String.mk [quoteChar] ++ s ++ String.mk [quoteChar]

/-- The ValueError text raised by predict on a wrong argument count. -/
def lenErrMsg : String :=
  "Expected 7 features: N, P, K, temperature, humidity, ph, rainfall"

/-- The list comprehension float(x) for x in args: stops at the first
non-numeric argument with the ValueError of float. -/
def parseFloats : List String → Except String (List PyVal)
  | [] => .ok []
  | a :: as =>
      match pyFloat a with
      | none => .error (floatErrMsg a)
      | some v =>
          match parseFloats as with
          | .error e => .error e
          | .ok vs => .ok (v :: vs)

/-- One recommendation object of the success envelope: crop and
probability keys. -/
def recJson (cp : String × ℚ) : Json :=
  Json.obj [("crop", Json.str cp.1), ("probability", Json.num cp.2)]

/-- The predict function of predict_wrapper.py: the JSON object it
prints for a given argument list, with the loaded model available.
Inside the try block a wrong argument count raises ValueError, a
non-numeric argument makes float raise ValueError, and otherwise the
success envelope is printed; the except clause prints the failure
envelope with the error text. -/
def predict (m : Classifier) (args : List String) : Json :=
  if args.length ≠ 7 then
    Json.obj [("success", Json.bool false), ("error", Json.str lenErrMsg)]
  else
    match parseFloats args with
    | .error e =>
        Json.obj [("success", Json.bool false), ("error", Json.str e)]
    | .ok inputs =>
        Json.obj [("success", Json.bool true),
          ("recommendations", Json.arr ((top3 m inputs).map recJson))]

/-- Outcome of the module-level joblib.load at wrapper startup. -/
inductive LoadResult where
  | ok : Classifier → LoadResult
  | err : String → LoadResult

/-- A whole CLI invocation of predict_wrapper.py: the JSON object
printed to stdout and the process exit code. When the module-level
load fails, the except clause prints an object with only an error key
and calls sys.exit 1; otherwise predict runs and the process ends
normally with exit code 0. -/
def runCli (load : LoadResult) (args : List String) : Json × ℕ :=
  match load with
  | .err e => (Json.obj [("error", Json.str ("Failed to load model: " ++ e))], 1)
  | .ok m => (predict m args, 0)

/-- Whether a JSON value is an object carrying the given key. -/
def hasKey : Json → String → Bool
  | Json.obj kvs, k => kvs.any (fun kv => kv.1 = k)
  | _, _ => false

/-- A small concrete classifier with two classes, one probability per
class, used to exercise the theorems on concrete inputs. -/
def demoClassifier : Classifier :=
  ⟨["rice", "maize"], fun _ => [0, 1]⟩

/-- A concrete 7-value feature vector used to exercise the theorems. -/
def demoInput : List PyVal :=
  [PyVal.num 90, PyVal.num 40, PyVal.num 40, PyVal.num 25,
    PyVal.num 75, PyVal.num 7, PyVal.num 180]

/-! ## Helper lemmas about the rounding function -/

theorem rhe_floor_le (q : ℚ) : ⌊q⌋ ≤ rndHalfEven q := by
  unfold rndHalfEven
  split_ifs <;> omega

theorem rhe_le_floor_add_one (q : ℚ) : rndHalfEven q ≤ ⌊q⌋ + 1 := by
  unfold rndHalfEven
  split_ifs <;> omega

theorem rhe_nonneg {q : ℚ} (h : 0 ≤ q) : 0 ≤ rndHalfEven q := by
  have hf : 0 ≤ ⌊q⌋ := Int.floor_nonneg.mpr h
  have := rhe_floor_le q
  omega

theorem rhe_le_intCast {q : ℚ} {n : ℤ} (h : q ≤ n) : rndHalfEven q ≤ n := by
  have hfl : ⌊q⌋ ≤ n := by
    have := Int.floor_le_floor h
    simpa using this
  unfold rndHalfEven
  split_ifs with c1 c2 c3 <;> try omega
  all_goals {
    have hfloor : (⌊q⌋ : ℚ) ≤ q := Int.floor_le q
    have h2 : (⌊q⌋ : ℚ) + 1/2 ≤ q := by linarith
    have h3 : (⌊q⌋ : ℚ) < (n : ℚ) := by linarith
    have h4 : ⌊q⌋ < n := by exact_mod_cast h3
    omega }

theorem rhe_mono {q r : ℚ} (h : q ≤ r) : rndHalfEven q ≤ rndHalfEven r := by
  have hf : ⌊q⌋ ≤ ⌊r⌋ := Int.floor_le_floor h
  rcases lt_or_eq_of_le hf with hlt | heq
  · have h1 := rhe_le_floor_add_one q
    have h2 := rhe_floor_le r
    omega
  · have hfrac : q - (⌊q⌋ : ℚ) ≤ r - (⌊q⌋ : ℚ) := by linarith
    unfold rndHalfEven
    rw [← heq]
    split_ifs <;> first | omega | linarith

theorem round2_mono {x y : ℚ} (h : x ≤ y) : round2 x ≤ round2 y := by
  unfold round2
  have h1 : x * 100 ≤ y * 100 := by linarith
  have h2 := rhe_mono h1
  have h3 : ((rndHalfEven (x * 100)) : ℚ) ≤ ((rndHalfEven (y * 100)) : ℚ) := by
    exact_mod_cast h2
  linarith

theorem round2_nonneg {x : ℚ} (h : 0 ≤ x) : 0 ≤ round2 x := by
  unfold round2
  have h1 : 0 ≤ rndHalfEven (x * 100) := rhe_nonneg (by linarith)
  have h2 : (0 : ℚ) ≤ ((rndHalfEven (x * 100)) : ℚ) := by exact_mod_cast h1
  linarith

theorem round2_le_100 {x : ℚ} (h : x ≤ 100) : round2 x ≤ 100 := by
  unfold round2
  have h1 : x * 100 ≤ ((10000 : ℤ) : ℚ) := by push_cast; linarith
  have h2 : rndHalfEven (x * 100) ≤ 10000 := rhe_le_intCast h1
  have h3 : ((rndHalfEven (x * 100)) : ℚ) ≤ 10000 := by exact_mod_cast h2
  linarith

theorem round2_mul_100_den {x : ℚ} : (round2 x * 100).den = 1 := by
  unfold round2
  have h : ((rndHalfEven (x * 100)) : ℚ) / 100 * 100
      = ((rndHalfEven (x * 100)) : ℚ) := by
    field_simp
  rw [h]
  exact Rat.den_intCast _

/-! ## Helper lemmas about the sort used by both entry points -/

theorem probDesc_trans (a b c : String × ℚ) :
    probDesc a b → probDesc b c → probDesc a c := by
  unfold probDesc
  intro hab hbc
  exact decide_eq_true (le_trans (of_decide_eq_true hbc) (of_decide_eq_true hab))

theorem probDesc_total (a b : String × ℚ) : probDesc a b || probDesc b a := by
  unfold probDesc
  rcases le_total a.2 b.2 with h | h <;> simp [h]

theorem sortedResults_perm (m : Classifier) (input : List PyVal) :
    List.Perm (sortedResults m input) (results m input) :=
  List.mergeSort_perm (results m input) probDesc

theorem sortedResults_pairwise (m : Classifier) (input : List PyVal) :
    (sortedResults m input).Pairwise (fun a b => b.2 ≤ a.2) := by
  have h := List.sorted_mergeSort probDesc_trans probDesc_total (results m input)
  exact h.imp (fun hab => of_decide_eq_true hab)

theorem mem_filter_snd {l : List (String × ℚ)} {p : ℚ} {x : String × ℚ}
    (hx : x ∈ l.filter (fun y => decide (y.2 = p))) : x.2 = p :=
  of_decide_eq_true (List.mem_filter.mp hx).2

theorem filter_snd_pairwise (l : List (String × ℚ)) (p : ℚ) :
    (l.filter (fun y => decide (y.2 = p))).Pairwise
      (fun a b => probDesc a b = true) := by
  apply List.pairwise_of_forall_mem_list
  intro a ha b hb
  have ha2 := mem_filter_snd ha
  have hb2 := mem_filter_snd hb
  unfold probDesc
  rw [ha2, hb2]
  simp

/-! ## Helper lemmas about the CLI adapter -/

theorem parseFloats_error_of_bad {args : List String}
    (h : ∃ a ∈ args, pyFloat a = none) :
    ∃ e, parseFloats args = Except.error e := by
  induction args with
  | nil => simp at h
  | cons a as ih =>
      obtain ⟨b, hb, hbad⟩ := h
      cases hpa : pyFloat a with
      | none => exact ⟨floatErrMsg a, by simp [parseFloats, hpa]⟩
      | some v =>
          rcases List.mem_cons.mp hb with rfl | hbs
          · rw [hpa] at hbad; cases hbad
          · obtain ⟨e, he⟩ := ih ⟨b, hbs, hbad⟩
            exact ⟨e, by simp [parseFloats, hpa, he]⟩

theorem predict_fail_shape {m : Classifier} {args : List String}
    (ha : args.length ≠ 7 ∨ ∃ a ∈ args, pyFloat a = none) :
    ∃ e, predict m args
      = Json.obj [("success", Json.bool false), ("error", Json.str e)] := by
  by_cases hlen : args.length = 7
  · rcases ha with h | h
    · exact absurd hlen h
    · obtain ⟨e, he⟩ := parseFloats_error_of_bad h
      exact ⟨e, by simp [predict, hlen, he]⟩
  · exact ⟨lenErrMsg, by simp [predict, hlen]⟩

/-! ## Claim theorems -/

/-- C7: the sort used by predict_top3 is stable. For every probability
value, the entries of the sorted pairing carrying that probability are
exactly, and in the same order as, the entries of the original
class-probability pairing carrying it: equal-probability classes keep
the internal class ordering of the classifier. -/
theorem C7_sort_stable (m : Classifier) (input : List PyVal) (p : ℚ) :
    (sortedResults m input).filter (fun x => decide (x.2 = p))
      = (results m input).filter (fun x => decide (x.2 = p)) := by
  have hpw := filter_snd_pairwise (results m input) p
  have hsub : List.Sublist ((results m input).filter
        (fun x => decide (x.2 = p))) (sortedResults m input) :=
    List.sublist_mergeSort probDesc_trans probDesc_total hpw
      (List.filter_sublist _)
  have hidem : ((results m input).filter (fun x => decide (x.2 = p))).filter
      (fun x => decide (x.2 = p))
      = (results m input).filter (fun x => decide (x.2 = p)) :=
    List.filter_eq_self.mpr (fun a ha => (List.mem_filter.mp ha).2)
  have hsub2 := hsub.filter (fun x => decide (x.2 = p))
  rw [hidem] at hsub2
  have hlen : ((sortedResults m input).filter
        (fun x => decide (x.2 = p))).length
      = ((results m input).filter (fun x => decide (x.2 = p))).length :=
    ((sortedResults_perm m input).filter _).length_eq
  exact (hsub2.eq_of_length hlen.symm).symm

/-- C4 counterexample: a CLI invocation whose model load fails
terminates with exit code 1, not 0, refuting that every invocation
exits with code 0. -/
theorem C4_counterexample :
    (runCli (LoadResult.err "No such file or directory")
        ["90", "40", "40", "25", "75", "7", "180"]).2 = 1 ∧
      (runCli (LoadResult.err "No such file or directory")
        ["90", "40", "40", "25", "75", "7", "180"]).2 ≠ 0 :=
  ⟨rfl, by decide⟩

/-- C4 amended: when the model loads successfully every invocation,
including wrong argument count and non-numeric arguments, exits with
code 0 and reports errors only through the JSON envelope; when the
module-level model load fails the process exits with code 1. -/
theorem C4_exit_codes (m : Classifier) (e : String)
    (args args2 : List String) :
    (runCli (LoadResult.ok m) args).2 = 0 ∧
      (runCli (LoadResult.err e) args2).2 = 1 :=
  ⟨rfl, rfl⟩

/-- C6 counterexample: on model load failure the printed object is an
object with only an error key; it carries no success key at all,
refuting that every failing invocation prints an object whose success
key is false. -/
theorem C6_counterexample :
    (runCli (LoadResult.err "boom") ["90", "40", "40", "25", "75", "7", "180"]).1
        = Json.obj [("error", Json.str "Failed to load model: boom")] ∧
      hasKey (runCli (LoadResult.err "boom")
        ["90", "40", "40", "25", "75", "7", "180"]).1 "success" = false :=
  ⟨rfl, rfl⟩

/-- C6 amended: once the model has loaded, every printed object is
either the success envelope or a failure object with success false and
a string error; when the model load fails the printed object is an
object with only an error string, no success key, and the process
exits with code 1. -/
theorem C6_envelope_shapes (m : Classifier) (args : List String) (e : String) :
    ((∃ recs, predict m args
        = Json.obj [("success", Json.bool true), ("recommendations", recs)]) ∨
      (∃ msg, predict m args
        = Json.obj [("success", Json.bool false), ("error", Json.str msg)])) ∧
      runCli (LoadResult.err e) args
        = (Json.obj [("error", Json.str ("Failed to load model: " ++ e))], 1) := by
  constructor
  · by_cases hlen : args.length = 7
    · cases hpf : parseFloats args with
      | error msg => exact Or.inr ⟨msg, by simp [predict, hlen, hpf]⟩
      | ok inputs =>
          exact Or.inl ⟨Json.arr ((top3 m inputs).map recJson),
            by simp [predict, hlen, hpf]⟩
    · exact Or.inr ⟨lenErrMsg, by simp [predict, hlen]⟩
  · rfl

/-- C8: predict_top3 is deterministic. Two calls against loaded
classifiers with the same class list and the same probability mapping
return identical recommendation lists for the same feature vector. -/
theorem C8_deterministic (m1 m2 : Classifier) (v : List PyVal)
    (hc : m1.classes = m2.classes)
    (hp : ∀ u, m1.predict_proba u = m2.predict_proba u) :
    predict_top3 m1 v = predict_top3 m2 v := by
  unfold predict_top3 top3 sortedResults results
  rw [hc, hp v]

/-- C8 witness: the determinism theorem applied to the concrete demo
classifier and demo input. -/
theorem C8_deterministic_witness :
    predict_top3 demoClassifier demoInput
      = predict_top3 demoClassifier demoInput :=
  C8_deterministic demoClassifier demoClassifier demoInput rfl (fun _ => rfl)

/-- C10: the CLI does not enforce finiteness at its boundary. The
strings nan and inf parse as floats, and an invocation with seven
arguments one of which is nan raises no input-validation error: the
non-finite value is passed to the classifier and the success envelope
is produced from the classifier output on it. -/
theorem C10_nonfinite_accepted (m : Classifier) :
    pyFloat "nan" = some PyVal.nan ∧ pyFloat "inf" = some PyVal.inf ∧
      predict m ["90", "40", "40", "25", "75", "7", "nan"]
        = Json.obj [("success", Json.bool true),
            ("recommendations", Json.arr ((top3 m [PyVal.num 90, PyVal.num 40,
              PyVal.num 40, PyVal.num 25, PyVal.num 75, PyVal.num 7,
              PyVal.nan]).map recJson))] :=
  ⟨by decide, by decide, rfl⟩

/-- C1: for every feature vector of length 7 and every classifier,
predict_top3 succeeds and returns at most 3 label-percentage pairs
sorted by non-increasing percentage; when the classifier supplies one
probability per class and has fewer than 3 classes, the result has
exactly one entry per class, never padded with placeholders. -/
theorem C1_top3_length_sorted (m : Classifier) (v : List PyVal)
    (hv : v.length = 7) :
    ∃ out, predict_top3 m v = some out ∧ out.length ≤ 3 ∧
      out.Pairwise (fun a b : String × ℚ => b.2 ≤ a.2) ∧
      ((m.predict_proba v).length = m.classes.length →
        out.length = min 3 m.classes.length) := by
  refine ⟨top3 m v, ?_, ?_, ?_, ?_⟩
  · simp [predict_top3, FEATURES, hv]
  · simp only [top3, List.length_map, List.length_take]
    omega
  · unfold top3
    have h1 : ((sortedResults m v).take 3).Pairwise
        (fun a b : String × ℚ => b.2 ≤ a.2) :=
      (sortedResults_pairwise m v).take
    exact h1.map _ (fun a b hab => round2_mono (by linarith))
  · intro hp
    simp only [top3, sortedResults, results, List.length_map,
      List.length_take, List.length_mergeSort, List.length_zip, hp]
    omega

/-- C1 witness: the theorem applied to the demo classifier and the
concrete demo input of length 7. -/
theorem C1_top3_length_sorted_witness :
    demoInput.length = 7 ∧
      ∃ out, predict_top3 demoClassifier demoInput = some out ∧
        out.length ≤ 3 ∧
        out.Pairwise (fun a b : String × ℚ => b.2 ≤ a.2) ∧
        ((demoClassifier.predict_proba demoInput).length
            = demoClassifier.classes.length →
          out.length = min 3 demoClassifier.classes.length) :=
  ⟨by decide, C1_top3_length_sorted demoClassifier demoInput (by decide)⟩

/-- C2: when the classifier probabilities lie in the unit interval,
every percentage returned by predict_top3 is the two-decimal rounding
of 100 times the probability paired with that same label, lies between
0 and 100, and 100 times it is an integer, so it has at most two
decimal places. -/
theorem C2_percentage_rounding (m : Classifier) (v : List PyVal)
    (hv : v.length = 7)
    (hb : ∀ p ∈ m.predict_proba v, 0 ≤ p ∧ p ≤ 1) :
    ∃ out, predict_top3 m v = some out ∧
      ∀ r ∈ out, (∃ cp ∈ results m v, r = (cp.1, round2 (cp.2 * 100))) ∧
        0 ≤ r.2 ∧ r.2 ≤ 100 ∧ (r.2 * 100).den = 1 := by
  refine ⟨top3 m v, ?_, ?_⟩
  · simp [predict_top3, FEATURES, hv]
  · intro r hr
    unfold top3 at hr
    obtain ⟨cp, hcp, rfl⟩ := List.mem_map.mp hr
    have hcp2 : cp ∈ sortedResults m v := List.mem_of_mem_take hcp
    have hcp3 : cp ∈ results m v := (sortedResults_perm m v).mem_iff.mp hcp2
    obtain ⟨c, p⟩ := cp
    have hzip : (c, p) ∈ m.classes.zip (m.predict_proba v) := hcp3
    have hp : p ∈ m.predict_proba v := (List.of_mem_zip hzip).2
    obtain ⟨hp0, hp1⟩ := hb p hp
    refine ⟨⟨(c, p), hcp3, rfl⟩, ?_, ?_, ?_⟩
    · exact round2_nonneg (by linarith)
    · exact round2_le_100 (by linarith)
    · exact round2_mul_100_den

/-- C2 witness: the theorem applied to the demo classifier, whose
probabilities 0 and 1 lie in the unit interval, on the demo input. -/
theorem C2_percentage_rounding_witness :
    demoInput.length = 7 ∧
      (∀ p ∈ demoClassifier.predict_proba demoInput, 0 ≤ p ∧ p ≤ 1) ∧
      ∃ out, predict_top3 demoClassifier demoInput = some out ∧
        ∀ r ∈ out, (∃ cp ∈ results demoClassifier demoInput,
            r = (cp.1, round2 (cp.2 * 100))) ∧
          0 ≤ r.2 ∧ r.2 ≤ 100 ∧ (r.2 * 100).den = 1 :=
  ⟨by decide, by decide,
    C2_percentage_rounding demoClassifier demoInput (by decide) (by decide)⟩

/-- C3: an input vector whose length is not 7 makes predict_top3 fail
with no result at all, never a truncated or padded recommendation
list; and a CLI argument list with wrong length or a non-numeric entry
makes predict print the failure envelope, never a success envelope. -/
theorem C3_invalid_input_rejected (m : Classifier) (v : List PyVal)
    (args : List String) (hv : v.length ≠ 7)
    (ha : args.length ≠ 7 ∨ ∃ a ∈ args, pyFloat a = none) :
    predict_top3 m v = none ∧
      ∃ e, predict m args
        = Json.obj [("success", Json.bool false), ("error", Json.str e)] :=
  ⟨by simp [predict_top3, FEATURES, hv], predict_fail_shape ha⟩

/-- C3 witness: the theorem applied to the empty vector and a 7-entry
argument list containing the non-numeric string abc. -/
theorem C3_invalid_input_rejected_witness :
    (([] : List PyVal).length ≠ 7) ∧
      ((["90", "40", "40", "25", "75", "7", "abc"] : List String).length ≠ 7 ∨
        ∃ a ∈ (["90", "40", "40", "25", "75", "7", "abc"] : List String),
          pyFloat a = none) ∧
      (predict_top3 demoClassifier [] = none ∧
        ∃ e, predict demoClassifier ["90", "40", "40", "25", "75", "7", "abc"]
          = Json.obj [("success", Json.bool false), ("error", Json.str e)]) :=
  ⟨by decide, by decide,
    C3_invalid_input_rejected demoClassifier []
      ["90", "40", "40", "25", "75", "7", "abc"] (by decide) (by decide)⟩

/-- C5: an erroneous CLI argument list, wrong count or a non-numeric
entry, makes predict print the failure envelope with a message and
nothing else; with 6 arguments the envelope carries exactly the
expected-7-features message. -/
theorem C5_cli_error_envelope (m : Classifier) (args : List String)
    (ha : args.length ≠ 7 ∨ ∃ a ∈ args, pyFloat a = none) :
    (∃ e, predict m args
        = Json.obj [("success", Json.bool false), ("error", Json.str e)]) ∧
      (args.length = 6 → predict m args
        = Json.obj [("success", Json.bool false), ("error", Json.str lenErrMsg)]) := by
  refine ⟨predict_fail_shape ha, fun h6 => ?_⟩
  have hlen : args.length ≠ 7 := by omega
  simp [predict, hlen]

/-- C5 witness: the theorem applied to a 6-argument invocation. -/
theorem C5_cli_error_envelope_witness :
    ((["90", "40", "40", "25", "75", "7"] : List String).length ≠ 7 ∨
      ∃ a ∈ (["90", "40", "40", "25", "75", "7"] : List String),
        pyFloat a = none) ∧
    ((∃ e, predict demoClassifier ["90", "40", "40", "25", "75", "7"]
        = Json.obj [("success", Json.bool false), ("error", Json.str e)]) ∧
      ((["90", "40", "40", "25", "75", "7"] : List String).length = 6 →
        predict demoClassifier ["90", "40", "40", "25", "75", "7"]
          = Json.obj [("success", Json.bool false), ("error", Json.str lenErrMsg)])) :=
  ⟨by decide,
    C5_cli_error_envelope demoClassifier ["90", "40", "40", "25", "75", "7"]
      (by decide)⟩

/-- C9: every pair returned by predict_top3 comes from the classifier
itself: its label is in the class list and its percentage is the
rounding of the probability zipped with that same label, and when the
class list has no duplicates neither has the list of returned labels. -/
theorem C9_pairs_from_classifier (m : Classifier) (v : List PyVal)
    (hv : v.length = 7)
    (hp : (m.predict_proba v).length = m.classes.length) :
    ∃ out, predict_top3 m v = some out ∧
      (∀ r ∈ out, r.1 ∈ m.classes ∧
        ∃ cp ∈ results m v, r = (cp.1, round2 (cp.2 * 100))) ∧
      (m.classes.Nodup → (out.map Prod.fst).Nodup) := by
  refine ⟨top3 m v, ?_, ?_, ?_⟩
  · simp [predict_top3, FEATURES, hv]
  · intro r hr
    unfold top3 at hr
    obtain ⟨cp, hcp, rfl⟩ := List.mem_map.mp hr
    have hcp2 : cp ∈ sortedResults m v := List.mem_of_mem_take hcp
    have hcp3 : cp ∈ results m v := (sortedResults_perm m v).mem_iff.mp hcp2
    obtain ⟨c, p⟩ := cp
    have hzip : (c, p) ∈ m.classes.zip (m.predict_proba v) := hcp3
    exact ⟨(List.of_mem_zip hzip).1, ⟨(c, p), hcp3, rfl⟩⟩
  · intro hnd
    have h1 : (top3 m v).map Prod.fst
        = ((sortedResults m v).take 3).map Prod.fst := by
      unfold top3
      rw [List.map_map]
      rfl
    have h2 : ((sortedResults m v).map Prod.fst).Nodup := by
      have hperm := (sortedResults_perm m v).map Prod.fst
      rw [hperm.nodup_iff]
      have hfst : (results m v).map Prod.fst = m.classes := by
        unfold results
        exact List.map_fst_zip m.classes (m.predict_proba v) (le_of_eq hp.symm)
      rw [hfst]
      exact hnd
    rw [h1, List.map_take]
    exact List.Nodup.sublist (List.take_sublist _ _) h2

/-- C9 witness: the theorem applied to the demo classifier, which has
one probability per class, on the demo input. -/
theorem C9_pairs_from_classifier_witness :
    demoInput.length = 7 ∧
      (demoClassifier.predict_proba demoInput).length
        = demoClassifier.classes.length ∧
      ∃ out, predict_top3 demoClassifier demoInput = some out ∧
        (∀ r ∈ out, r.1 ∈ demoClassifier.classes ∧
          ∃ cp ∈ results demoClassifier demoInput,
            r = (cp.1, round2 (cp.2 * 100))) ∧
        (demoClassifier.classes.Nodup → (out.map Prod.fst).Nodup) :=
  ⟨by decide, by decide,
    C9_pairs_from_classifier demoClassifier demoInput (by decide) (by decide)⟩
